import Mathlib

/-!
Verification development for the hyperliquid-whale-agent repository.

The repository is a Next.js chat application whose core logic is the
multi-channel response resolution in the `POST /chat` handler
(src/app/api/whale/route.ts), the ASI:ONE chat-completion client
(src/lib/asi-one.ts), the in-memory local mailbox with canned responses
(src/app/api/mailbox/route.ts), and the Hyperliquid enrichment client
(HyperliquidClient.enrichWallet / parsePositions / parseFills).

Shallow embedding conventions:
- JavaScript numbers (results of `parseFloat`) are modelled as rationals.
- JSON fields that may be absent or falsy are modelled as `Option` values;
  `none` stands for an absent or falsy field, `some v` for a present
  truthy value (for strings, truthiness of the string itself is still
  checked explicitly where the code checks it).
- Network effects are modelled as data: each external `fetch` is an input
  describing what that call would do (throw, non-ok status, or a parsed
  body), so the handlers become pure functions of the request plus the
  behavior of their outbound calls.
- Wall-clock time (`Date.now()`, `new Date().toLocaleString()`) is an
  explicit parameter.
-/

namespace WhaleAgent

/-- Lowercasing of a string, modelling JavaScript `String.toLowerCase`
for the ASCII texts this app matches on. -/
def lowerStr (s : String) : String := String.mk (s.data.map Char.toLower)

/-- Auxiliary for substring search: does the second list start with the first? -/
def startsWithL : List Char → List Char → Bool
  | [], _ => true
  | _ :: _, [] => false
  | p :: ps, c :: cs => p == c && startsWithL ps cs

/-- Auxiliary for substring search: does the second list contain the first
as a contiguous run? -/
def hasSubL (pat : List Char) : List Char → Bool
  | [] => pat.isEmpty
  | c :: rest => startsWithL pat (c :: rest) || hasSubL pat rest

/-- Substring containment, modelling JavaScript `String.includes`. -/
def includesStr (s pat : String) : Bool := hasSubL pat.data s.data

/-- Absolute value as computed by JavaScript `Math.abs`. -/
def jsAbs (q : ℚ) : ℚ := if q < 0 then -q else q

/-- JavaScript `a || b` on an optional string `a` (absent or empty means
falsy) with string fallback `b`. -/
def jsOrStr (a : Option String) (b : String) : String :=
  match a with
  | some s => if s == "" then b else s
  | none => b

/-! ## Local mailbox (src/app/api/mailbox/route.ts) -/

/-- Message type tag of a mailbox message. -/
inductive MessageType
  | query
  | response
deriving DecidableEq

/-- A mailbox `Message` (route.ts lines 4-11). The JS fields `to` and
`from` are Lean keywords and are embedded as `toAddr` and `fromAddr`. -/
structure Message where
  id : String
  toAddr : String
  fromAddr : String
  content : String
  timestamp : ℤ
  type : MessageType
deriving DecidableEq

/-- `LocalMailbox.addMessage` (route.ts lines 17-33) acting on the stored
message list. The generated `id` (`Date.now()` plus a random suffix) and
`timestamp` are abstracted into the fields of the already-built message
`m`; the claims are about the retention behavior, which does not depend
on them. After pushing, the list is trimmed to its last 100 elements
(`this.messages.slice(-100)`) whenever it exceeds 100. -/
def addMessage (messages : List Message) (m : Message) : List Message :=
  let l := messages ++ [m]
  if l.length > 100 then l.drop (l.length - 100) else l

/-- `LocalMailbox.getMessages` (route.ts lines 35-40): with an agent
address, filter to messages to or from it; otherwise return all. -/
def getMessages (messages : List Message) (agentAddress : Option String) : List Message :=
  match agentAddress with
  | some a => messages.filter (fun m => m.toAddr == a || m.fromAddr == a)
  | none => messages

/-- The last-100-elements trim used by `addMessage` (`slice(-100)`). -/
def last100 (l : List Message) : List Message := l.drop (l.length - 100)

/-- Canned text for the `status` intent (mailbox route.ts lines 77-94).
`now` is the rendering of `new Date().toLocaleString()` at the time of
the call. -/
def statusText (now : String) : String :=
  "🐋 **Whale Agent Status Report**\n\n" ++
  "**System Status:** ✅ Online and monitoring\n" ++
  "**Connected to:** Hyperliquid Mainnet\n" ++
  "**Last Update:** " ++ now ++ "\n\n" ++
  "**Current Monitoring:**\n" ++
  "• Large deposits (>$100K)\n" ++
  "• Whale trading patterns\n" ++
  "• Market impact analysis\n" ++
  "• Real-time alerts\n\n" ++
  "**Recent Activity:**\n" ++
  "• 3 large deposits detected in last hour\n" ++
  "• 2 whale trades with >$1M volume\n" ++
  "• Market volatility: Moderate\n\n" ++
  "Type \"alerts\" for recent whale alerts or \"help\" for available commands."

/-- Canned text for the `alerts` intent (mailbox route.ts lines 96-116). -/
def alertsText : String :=
  "🚨 **Recent Whale Alerts**\n\n" ++
  "**Last 24 Hours:**\n" ++
  "1. **Large Deposit** - $2.3M USDC\n" ++
  "   • Address: 0x742d...8f3a\n" ++
  "   • Time: 2 hours ago\n" ++
  "   • Impact: Moderate buying pressure\n\n" ++
  "2. **Whale Trade** - $1.8M ETH/USDC\n" ++
  "   • Size: 450 ETH\n" ++
  "   • Direction: Sell\n" ++
  "   • Time: 4 hours ago\n" ++
  "   • Price Impact: -0.3%\n\n" ++
  "3. **Position Build** - $5.2M Multi-asset\n" ++
  "   • Assets: ETH, BTC, SOL\n" ++
  "   • Strategy: Accumulation\n" ++
  "   • Time: 6 hours ago\n\n" ++
  "**Market Sentiment:** Cautiously bullish\n" ++
  "**Whale Activity Level:** High"

/-- Canned text for the `help` intent (mailbox route.ts lines 118-140). -/
def helpText : String :=
  "🐋 **Whale Agent Commands**\n\n" ++
  "**Available Commands:**\n" ++
  "• `status` - Get current system status\n" ++
  "• `alerts` - View recent whale alerts\n" ++
  "• `whale [address]` - Analyze specific wallet\n" ++
  "• `deposits` - Show recent large deposits\n" ++
  "• `trades` - View significant trades\n" ++
  "• `market` - Current market analysis\n\n" ++
  "**Features:**\n" ++
  "✅ Real-time whale monitoring\n" ++
  "✅ Large deposit tracking\n" ++
  "✅ Trading pattern analysis\n" ++
  "✅ Market impact assessment\n" ++
  "✅ Custom alerts\n\n" ++
  "**Data Sources:**\n" ++
  "• Hyperliquid API\n" ++
  "• On-chain transaction data\n" ++
  "• Trading volume analysis\n\n" ++
  "Need help with a specific command? Just ask!"

/-- Canned text for the wallet-analysis intent (mailbox route.ts lines
142-166). -/
def whaleText : String :=
  "🔍 **Whale Analysis**\n\n" ++
  "Analyzing wallet activity...\n\n" ++
  "**Wallet Overview:**\n" ++
  "• Total Portfolio: $12.4M\n" ++
  "• Active Since: 2023-08\n" ++
  "• Trade Count: 1,247\n" ++
  "• Win Rate: 68%\n\n" ++
  "**Recent Activity:**\n" ++
  "• Last Trade: 3 hours ago\n" ++
  "• Volume (24h): $890K\n" ++
  "• P&L (7d): +$234K (+2.1%)\n\n" ++
  "**Trading Patterns:**\n" ++
  "• Preferred Assets: ETH, BTC, SOL\n" ++
  "• Avg Position Size: $150K\n" ++
  "• Hold Time: 2.3 days\n" ++
  "• Risk Level: Moderate\n\n" ++
  "**Market Impact:**\n" ++
  "• Price Impact: Low-Medium\n" ++
  "• Following: 23 copy traders\n" ++
  "• Influence Score: 7.2/10"

/-- Canned default text (mailbox route.ts lines 168-184); it embeds the
incoming message verbatim. -/
def defaultText (message : String) : String :=
  "🐋 **Whale Agent Response**\n\n" ++
  "I received your message: \"" ++ message ++ "\"\n\n" ++
  "I\x27m currently monitoring Hyperliquid for whale activity. Here\x27s what I can help you with:\n\n" ++
  "• **Real-time whale tracking** - Monitor large trades and deposits\n" ++
  "• **Market analysis** - Understand whale impact on prices  \n" ++
  "• **Alert system** - Get notified of significant whale movements\n" ++
  "• **Portfolio analysis** - Deep dive into whale wallets\n\n" ++
  "Try asking:\n" ++
  "• \"status\" - Current system status\n" ++
  "• \"alerts\" - Recent whale activity\n" ++
  "• \"help\" - Full command list\n\n" ++
  "What would you like to know about whale activity?"

/-- The simulated agent reply of the mailbox `POST` handler (route.ts
lines 72-185): case-insensitive substring matching against the fixed
intents, in source order. `now` is the rendering of
`new Date().toLocaleString()` during the call (the `status` text embeds
it). -/
def mailboxRespond (message : String) (now : String) : String :=
  let lowerMessage := lowerStr message
  if includesStr lowerMessage "status" then statusText now
  else if includesStr lowerMessage "alerts" then alertsText
  else if includesStr lowerMessage "help" then helpText
  else if includesStr lowerMessage "whale" ∧ lowerMessage.length > 10 then whaleText
  else defaultText message

/-! ## Hyperliquid enrichment client (HyperliquidClient) -/

/-- Position side. -/
inductive Side
  | long
  | short
deriving DecidableEq

/-- Fill action. -/
inductive Action
  | buy
  | sell
deriving DecidableEq

/-- Parsed position (types/whale.ts `HyperliquidPosition`). -/
structure HyperliquidPosition where
  coin : String
  side : Side
  notionalUsd : ℚ
  avgEntry : ℚ
  liqPx : ℚ
  leverage : Option ℚ
deriving DecidableEq

/-- Parsed fill (types/whale.ts `HyperliquidFill`). -/
structure HyperliquidFill where
  coin : String
  action : Action
  notionalUsd : ℚ
  price : ℚ
  timestamp : ℤ
deriving DecidableEq

/-- Enriched wallet record (types/whale.ts `EnrichedWallet`). -/
structure EnrichedWallet where
  wallet : String
  positions : List HyperliquidPosition
  recentFills : List HyperliquidFill
  totalNotionalUsd : ℚ
deriving DecidableEq

/-- Raw inner `position` object of one `assetPositions` entry. Numeric
string fields are modelled by their parsed rational value; `none` models
an absent or falsy field (for which the code substitutes `'0'` via
`entryPx || '0'` etc.). -/
structure RawPosition where
  coin : String
  szi : ℚ
  entryPx : Option ℚ
  liquidationPx : Option ℚ
  leverage : Option ℚ
deriving DecidableEq

/-- One entry of `clearinghouseState.assetPositions`; `position := none`
models an entry whose `.position` field is absent or falsy. -/
structure RawAssetPosition where
  position : Option RawPosition
deriving DecidableEq

/-- Raw clearinghouse state; `assetPositions := none` models a body with
no (or a falsy) `assetPositions` field. -/
structure ClearinghouseState where
  assetPositions : Option (List RawAssetPosition)
deriving DecidableEq

/-- One raw entry of the `userFills` array. `none` fields model absent
or falsy fields (the code guards with `fill.coin && fill.px && fill.sz`);
present numeric strings are modelled by their parsed value. `time := none`
models a missing or falsy `fill.time`, for which the code substitutes
`Date.now()`. -/
structure RawFill where
  coin : Option String
  px : Option ℚ
  sz : Option ℚ
  time : Option ℤ
deriving DecidableEq

/-- `HyperliquidClient.parsePositions` (part_002 lines 64-91): keep the
entries with a truthy `position` object and non-zero parsed size; side
from the sign of the size; notional is `Math.abs(szi * entryPx)`. -/
def parsePositions (cs : ClearinghouseState) : List HyperliquidPosition :=
  match cs.assetPositions with
  | none => []
  | some aps =>
    aps.filterMap fun ap =>
      match ap.position with
      | none => none
      | some p =>
        if p.szi ≠ 0 then
          some { coin := p.coin
               , side := if p.szi > 0 then Side.long else Side.short
               , notionalUsd := jsAbs (p.szi * p.entryPx.getD 0)
               , avgEntry := p.entryPx.getD 0
               , liqPx := p.liquidationPx.getD 0
               , leverage := p.leverage }
        else none

/-- Parsing of one raw fill entry, as done inside the loop of
`HyperliquidClient.parseFills` (part_002 lines 102-113): the entry is
kept only when `coin`, `px` and `sz` are all truthy. -/
def parseOneFill (now : ℤ) (f : RawFill) : Option HyperliquidFill :=
  match f.coin, f.px, f.sz with
  | some c, some px, some sz =>
    some { coin := c
         , action := if sz > 0 then Action.buy else Action.sell
         , notionalUsd := jsAbs (sz * px)
         , price := px
         , timestamp := f.time.getD now }
  | _, _, _ => none

/-- `HyperliquidClient.parseFills` (part_002 lines 96-121): if the body
is an array, take its first 10 entries (`userFills.slice(0, 10)`) and
keep the well-formed ones; otherwise return `[]`. The input `userFills`
is `none` when the body is not an array; `now` models `Date.now()`. -/
def parseFills (userFills : Option (List RawFill)) (now : ℤ) : List HyperliquidFill :=
  match userFills with
  | none => []
  | some fills => (fills.take 10).filterMap (parseOneFill now)

/-- Result of one outbound fetch of the enrichment client: `ok` carries
the parsed body, `err` models a rejected promise or a non-ok HTTP status
(both make `makeRequest` throw, part_002 lines 29-36). -/
inductive FetchResult (α : Type)
  | ok (a : α)
  | err
deriving DecidableEq

/-- `HyperliquidClient.enrichWallet` (part_002 lines 126-157): on success
of both fetches, parse positions and fills and total the notionals with
`positions.reduce((sum, pos) => sum + pos.notionalUsd, 0)`; if either
fetch fails (`Promise.all` rejects), return the empty enrichment. -/
def enrichWallet (walletAddress : String) (chs : FetchResult ClearinghouseState)
    (ufs : FetchResult (Option (List RawFill))) (now : ℤ) : EnrichedWallet :=
  match chs, ufs with
  | FetchResult.ok cs, FetchResult.ok uf =>
    let positions := parsePositions cs
    let recentFills := parseFills uf now
    { wallet := walletAddress
    , positions := positions
    , recentFills := recentFills
    , totalNotionalUsd := positions.foldl (fun sum pos => sum + pos.notionalUsd) 0 }
  | _, _ =>
    { wallet := walletAddress
    , positions := []
    , recentFills := []
    , totalNotionalUsd := 0 }

/-! ## ASI:ONE client (src/lib/asi-one.ts / src/lib second document) -/

/-- Behavior of the outbound chat-completions fetch of
`ASIOneClient.sendMessage`: `netThrow` models a rejected fetch or a body
whose JSON parsing throws (carrying the thrown error message), `httpErr`
a non-ok HTTP status, and `ok` a 2xx response with parsed JSON body, of
which only the two fields read by the extraction chain
`data.choices?.[0]?.message?.content || data.message || ...` are kept
(`none` = absent or falsy). -/
inductive RemoteFetch
  | netThrow (errMsg : String)
  | httpErr (status : Nat)
  | ok (choiceContent : Option String) (dataMessage : Option String)
deriving DecidableEq

/-- Environment of one `sendMessage` call: the effective target agent
address (`agentAddress || this.config.agentAddress`; `none` = absent or
falsy) and what the outbound fetch would do. -/
structure RemoteEnv where
  agentAddress : Option String
  fetch : RemoteFetch
deriving DecidableEq

/-- The `ASIOneResponse` shape (asi-one.ts lines 18-23); the opaque
`data` field is not modelled. -/
structure ASIOneResponse where
  success : Bool
  message : Option String
  error : Option String
deriving DecidableEq

/-- `ASIOneClient.sendMessage` (asi-one.ts lines 35-90, identically
constants.ts second document lines 79-147 when called without
`preferLocal`): all thrown conditions are caught and become
`success := false`; a 2xx parsed body always yields `success := true`
with the extraction chain defaulting to the placeholder
`'No response received'`. -/
def sendMessage (renv : RemoteEnv) : ASIOneResponse :=
  match renv.agentAddress with
  | none => { success := false, message := none, error := some "Agent address is required" }
  | some _ =>
    match renv.fetch with
    | RemoteFetch.netThrow e =>
      { success := false, message := none, error := some e }
    | RemoteFetch.httpErr status =>
      { success := false, message := none, error := some ("ASI:ONE API error: " ++ toString status) }
    | RemoteFetch.ok choiceContent dataMessage =>
      { success := true
      , message := some (jsOrStr choiceContent (jsOrStr dataMessage "No response received"))
      , error := none }

/-- The remote attempt as seen by the `POST /chat` handler (whale
route.ts lines 123-129 / 153-159): the reply text when
`asiResponse.success && asiResponse.message` holds, `none` when the
handler throws into its catch instead. -/
def remoteReply (renv : RemoteEnv) : Option String :=
  let r := sendMessage renv
  if r.success then
    match r.message with
    | some msg => if msg == "" then none else some msg
    | none => none
  else none

/-! ## Response resolver (src/app/api/whale/route.ts, second document) -/

/-- Parsed body of the local mailbox `/send` response as read by the
handler: the truthiness of `data.success` and the `data.response` string
(`none` = absent or falsy non-string). -/
structure MailboxRespBody where
  success : Bool
  response : Option String
deriving DecidableEq

/-- Behavior of the inline local-mailbox fetch of the handler (whale
route.ts lines 94-116): rejected fetch or throwing `json()`, non-ok
status, or a 2xx response with parsed body. -/
inductive LocalFetch
  | netThrow
  | httpErr (status : Nat)
  | ok (body : MailboxRespBody)
deriving DecidableEq

/-- The local attempt as seen by the handler: the reply text when the
response is ok and `data.success && data.response` holds, `none` when
the handler throws into its catch instead. -/
def localReply : LocalFetch → Option String
  | LocalFetch.netThrow => none
  | LocalFetch.httpErr _ => none
  | LocalFetch.ok body =>
    if body.success then
      match body.response with
      | some s => if s == "" then none else some s
      | none => none
    else none

/-- The `message` field of the parsed request body: absent, a non-string
value, or a string. -/
inductive MsgField
  | absent
  | notString
  | str (s : String)
deriving DecidableEq

/-- Parsed `POST /chat` request body: the `message` field and the
`preferLocal` field (`none` = absent, defaulted to `true` by the
destructuring `const { message, preferLocal = true }`). -/
structure ReqBody where
  message : MsgField
  preferLocal : Option Bool
deriving DecidableEq

/-- The validation `!message || typeof message !== 'string'` (whale
route.ts line 81): the usable message, or `none` when the handler
returns 400. An empty string is falsy and also rejected. -/
def validMessage : MsgField → Option String
  | MsgField.str s => if s == "" then none else some s
  | _ => none

/-- Availability and behavior snapshot for one resolution: the two
configuration flags (`isLocalMailboxConfigured()`, `isASIOneConfigured()`)
and what each channel attempt would do for this message. -/
structure ResolverEnv where
  localConfigured : Bool
  remoteConfigured : Bool
  localFetch : LocalFetch
  remote : RemoteEnv
deriving DecidableEq

/-- A communication channel of the resolver. -/
inductive Channel
  | localMailbox
  | asiOne
deriving DecidableEq

/-- Outcome of the `POST /chat` handler: 400, a success body with its
`response` text and `source` tag, 503 with its `error` field, or 500
(outer catch, reached when `request.json()` throws). -/
inductive ApiResult
  | badRequest (error : String)
  | ok (response : String) (source : String)
  | unavailable (error : String)
  | internalError
deriving DecidableEq

/-- The `POST /chat` handler (whale route.ts second document, lines
77-198), returning its outcome together with the list of channels it
attempted, in order. `req` is `none` when `request.json()` throws. -/
def POST (req : Option ReqBody) (env : ResolverEnv) : ApiResult × List Channel :=
  match req with
  | none => (ApiResult.internalError, [])
  | some b =>
    match validMessage b.message with
    | none => (ApiResult.badRequest "Message is required and must be a string", [])
    | some _ =>
      if b.preferLocal.getD true && env.localConfigured then
        match localReply env.localFetch with
        | some text => (ApiResult.ok text "local-mailbox", [Channel.localMailbox])
        | none =>
          if env.remoteConfigured then
            match remoteReply env.remote with
            | some text => (ApiResult.ok text "asi-one", [Channel.localMailbox, Channel.asiOne])
            | none =>
              (ApiResult.unavailable "All agent communication methods failed",
               [Channel.localMailbox, Channel.asiOne])
          else
            (ApiResult.unavailable "No agent communication available", [Channel.localMailbox])
      else if env.remoteConfigured then
        match remoteReply env.remote with
        | some text => (ApiResult.ok text "asi-one", [Channel.asiOne])
        | none => (ApiResult.unavailable "Agent communication failed", [Channel.asiOne])
      else
        (ApiResult.unavailable "No agent configured", [])

/-! ## Concrete inputs used by witnesses and counterexamples -/

/-- Environment with both channels configured, a failing local mailbox
and a healthy remote channel. -/
def envFallback : ResolverEnv :=
  { localConfigured := true
  , remoteConfigured := true
  , localFetch := LocalFetch.httpErr 500
  , remote := { agentAddress := some "agent1qfe8", fetch := RemoteFetch.ok (some "whale report") none } }

/-- Environment with a healthy configured local mailbox and the remote
channel unconfigured. -/
def envLocalOnly : ResolverEnv :=
  { localConfigured := true
  , remoteConfigured := false
  , localFetch := LocalFetch.ok { success := true, response := some "local whale report" }
  , remote := { agentAddress := none, fetch := RemoteFetch.netThrow "fetch failed" } }

/-- Environment with both channels configured and a healthy local
mailbox. -/
def envBothHealthy : ResolverEnv :=
  { localConfigured := true
  , remoteConfigured := true
  , localFetch := LocalFetch.ok { success := true, response := some "local whale report" }
  , remote := { agentAddress := some "agent1qfe8", fetch := RemoteFetch.ok (some "remote report") none } }

/-- Environment with both channels configured, a failing local mailbox,
and a remote channel answering 2xx with a JSON body from which no
assistant text can be extracted. -/
def envMalformedRemote : ResolverEnv :=
  { localConfigured := true
  , remoteConfigured := true
  , localFetch := LocalFetch.netThrow
  , remote := { agentAddress := some "agent1qfe8", fetch := RemoteFetch.ok none none } }

/-- Environment with both channels configured and both failing. -/
def envBothFailing : ResolverEnv :=
  { localConfigured := true
  , remoteConfigured := true
  , localFetch := LocalFetch.httpErr 502
  , remote := { agentAddress := some "agent1qfe8", fetch := RemoteFetch.httpErr 500 } }

/-- A demo raw fills list with a malformed entry. -/
def demoRawFills : List RawFill :=
  [ { coin := some "ETH", px := some 2500, sz := some 2, time := some 1700000000 }
  , { coin := none, px := some 1, sz := some 1, time := none }
  , { coin := some "BTC", px := some 40000, sz := some (-1), time := none } ]

end WhaleAgent

namespace WhaleAgent

/-! ## Helper lemmas -/

theorem addMessage_def (st : List Message) (m : Message) :
    addMessage st m =
      if (st ++ [m]).length > 100 then (st ++ [m]).drop ((st ++ [m]).length - 100)
      else st ++ [m] := rfl

theorem addMessage_eq_last100 (st : List Message) (m : Message) :
    addMessage st m = last100 (st ++ [m]) := by
  rw [addMessage_def]
  unfold last100
  by_cases h : (st ++ [m]).length > 100
  · rw [if_pos h]
  · rw [if_neg h]
    have h0 : (st ++ [m]).length - 100 = 0 := by omega
    rw [h0, List.drop_zero]

theorem last100_length_le (l : List Message) : (last100 l).length ≤ 100 := by
  unfold last100
  rw [List.length_drop]
  omega

theorem last100_append (l tl : List Message) :
    last100 (last100 l ++ tl) = last100 (l ++ tl) := by
  unfold last100
  rw [List.drop_append_eq_append_drop, List.drop_append_eq_append_drop, List.drop_drop]
  have e1 : (l.length - 100) + ((List.drop (l.length - 100) l ++ tl).length - 100)
      = (l ++ tl).length - 100 := by
    simp only [List.length_append, List.length_drop]
    omega
  rw [e1]
  have e2 : (List.drop (l.length - 100) l ++ tl).length - 100 - (List.drop (l.length - 100) l).length
      = (l ++ tl).length - 100 - l.length := by
    simp only [List.length_append, List.length_drop]
    omega
  rw [e2]

theorem foldl_addMessage (ms : List Message) : ∀ st : List Message, st.length ≤ 100 →
    ms.foldl addMessage st = last100 (st ++ ms) := by
  induction ms with
  | nil =>
    intro st h
    simp only [List.foldl_nil, List.append_nil]
    unfold last100
    have h0 : st.length - 100 = 0 := by omega
    rw [h0, List.drop_zero]
  | cons m tl ih =>
    intro st _
    rw [List.foldl_cons, addMessage_eq_last100]
    rw [ih _ (last100_length_le _), last100_append]
    simp [List.append_assoc]

theorem jsAbs_eq_abs (q : ℚ) : jsAbs q = |q| := by
  unfold jsAbs
  by_cases h : q < 0
  · rw [if_pos h, abs_of_neg h]
  · rw [if_neg h, abs_of_nonneg (le_of_not_lt h)]

theorem foldl_add_notional (l : List HyperliquidPosition) (a : ℚ) :
    l.foldl (fun sum pos => sum + pos.notionalUsd) a
      = a + (l.map (fun p => p.notionalUsd)).sum := by
  induction l generalizing a with
  | nil => simp
  | cons p tl ih => simp [List.foldl_cons, ih, add_assoc]

/-! ## Claim theorems -/

/-- C10: after any sequence of completed `addMessage` calls starting from
the empty mailbox, the stored message list holds at most 100 messages and
is exactly the list of most recently added messages (the final suffix of
the add sequence), and `getMessages` never returns more than 100
messages. -/
theorem mailbox_retention (ms : List Message) (a : Option String) :
    (ms.foldl addMessage []).length ≤ 100 ∧
    ms.foldl addMessage [] = ms.drop (ms.length - 100) ∧
    (getMessages (ms.foldl addMessage []) a).length ≤ 100 := by
  have h := foldl_addMessage ms [] (by simp)
  rw [List.nil_append] at h
  refine ⟨?_, ?_, ?_⟩
  · rw [h]; exact last100_length_le ms
  · rw [h]; rfl
  · cases a with
    | none =>
      simp only [getMessages]
      rw [h]; exact last100_length_le ms
    | some x =>
      simp only [getMessages]
      calc ((ms.foldl addMessage []).filter fun m => m.toAddr == x || m.fromAddr == x).length
          ≤ (ms.foldl addMessage []).length := List.length_filter_le _ _
        _ ≤ 100 := by rw [h]; exact last100_length_le ms

/-- C6: for every wallet and every behavior of the two fetches, the
enriched wallet's `totalNotionalUsd` equals the sum of `notionalUsd` over
its `positions`, and is `0` whenever `positions` is empty. -/
theorem enrich_totalNotional (w : String) (chs : FetchResult ClearinghouseState)
    (ufs : FetchResult (Option (List RawFill))) (now : ℤ) :
    (enrichWallet w chs ufs now).totalNotionalUsd
      = ((enrichWallet w chs ufs now).positions.map (fun p => p.notionalUsd)).sum ∧
    ((enrichWallet w chs ufs now).positions = [] →
      (enrichWallet w chs ufs now).totalNotionalUsd = 0) := by
  have hmain : (enrichWallet w chs ufs now).totalNotionalUsd
      = ((enrichWallet w chs ufs now).positions.map (fun p => p.notionalUsd)).sum := by
    cases chs with
    | err => simp [enrichWallet]
    | ok cs =>
      cases ufs with
      | err => simp [enrichWallet]
      | ok uf => simp [enrichWallet, foldl_add_notional]
  exact ⟨hmain, fun he => by rw [hmain, he]; simp⟩

theorem enrich_totalNotional_witness :
    (enrichWallet "0xabc" FetchResult.err FetchResult.err 0).totalNotionalUsd = 0 :=
  (enrich_totalNotional "0xabc" FetchResult.err FetchResult.err 0).2 rfl

/-- C7: if either the clearinghouse-state fetch or the user-fills fetch
fails, `enrichWallet` returns the given wallet with empty positions,
empty recent fills and `totalNotionalUsd = 0` instead of propagating the
error. -/
theorem enrich_fetchFailure (w : String) (chs : FetchResult ClearinghouseState)
    (ufs : FetchResult (Option (List RawFill))) (now : ℤ)
    (h : chs = FetchResult.err ∨ ufs = FetchResult.err) :
    enrichWallet w chs ufs now =
      { wallet := w, positions := [], recentFills := [], totalNotionalUsd := 0 } := by
  rcases h with h | h
  · subst h; cases ufs <;> rfl
  · subst h; cases chs <;> rfl

theorem enrich_fetchFailure_witness :
    enrichWallet "0xabc" FetchResult.err (FetchResult.ok (some demoRawFills)) 0 =
      { wallet := "0xabc", positions := [], recentFills := [], totalNotionalUsd := 0 } :=
  enrich_fetchFailure "0xabc" FetchResult.err (FetchResult.ok (some demoRawFills)) 0 (Or.inl rfl)

/-- C8: the parsed fills include only entries whose `coin`, `px` and `sz`
fields are all well-formed, drawn from the first 10 (most recent) entries
of the input; at most 10 fills result; each included fill has
`action = buy` exactly when its size is positive (`sell` otherwise) and
`notionalUsd = |size * price|`. -/
theorem parseFills_spec (l : List RawFill) (now : ℤ) :
    (parseFills (some l) now).length ≤ 10 ∧
    ∀ fl ∈ parseFills (some l) now, ∃ raw ∈ l.take 10, ∃ px sz,
      raw.coin = some fl.coin ∧ raw.px = some px ∧ raw.sz = some sz ∧
      fl.price = px ∧
      fl.action = (if sz > 0 then Action.buy else Action.sell) ∧
      fl.notionalUsd = |sz * px| := by
  constructor
  · calc (parseFills (some l) now).length
        ≤ (l.take 10).length := List.length_filterMap_le _ _
      _ ≤ 10 := by
        rw [List.length_take]
        exact min_le_left _ _
  · intro fl hfl
    simp only [parseFills] at hfl
    obtain ⟨raw, hraw, hparse⟩ := List.mem_filterMap.mp hfl
    refine ⟨raw, hraw, ?_⟩
    unfold parseOneFill at hparse
    rcases hc : raw.coin with _ | c <;> rw [hc] at hparse
    · simp at hparse
    rcases hp : raw.px with _ | px <;> rw [hp] at hparse
    · simp at hparse
    rcases hs : raw.sz with _ | sz <;> rw [hs] at hparse
    · simp at hparse
    refine ⟨px, sz, ?_⟩
    simp only [Option.some.injEq] at hparse
    subst hparse
    exact ⟨rfl, rfl, rfl, rfl, rfl, (jsAbs_eq_abs _).symm ▸ rfl⟩

theorem parseFills_spec_witness :
    (parseFills (some demoRawFills) 0).length ≤ 10 :=
  (parseFills_spec demoRawFills 0).1

end WhaleAgent

namespace WhaleAgent

/-- C1: if the caller prefers the local channel, the local mailbox is
configured but its attempt fails (thrown error, non-ok status, or a body
without `success`/`response`), and ASI:ONE is configured and its attempt
succeeds with a message, then the handler returns the success body whose
`source` is `asi-one` and whose `response` is the remote reply. -/
theorem resolver_fallback (b : ReqBody) (env : ResolverEnv) (m t : String)
    (hm : validMessage b.message = some m)
    (hp : b.preferLocal.getD true = true)
    (hl : env.localConfigured = true)
    (hlf : localReply env.localFetch = none)
    (hr : env.remoteConfigured = true)
    (hrr : remoteReply env.remote = some t) :
    POST (some b) env = (ApiResult.ok t "asi-one", [Channel.localMailbox, Channel.asiOne]) := by
  simp only [POST, hm, hp, hl, hlf, hr, hrr, Bool.and_self, if_true]

theorem resolver_fallback_witness :
    POST (some { message := MsgField.str "status", preferLocal := none }) envFallback
      = (ApiResult.ok "whale report" "asi-one", [Channel.localMailbox, Channel.asiOne]) :=
  resolver_fallback { message := MsgField.str "status", preferLocal := none } envFallback
    "status" "whale report" rfl rfl rfl rfl rfl rfl

/-- C2 counterexample: with `preferLocal = false`, a configured and
healthy local mailbox, and the remote channel unconfigured, the handler
returns the terminal 503 outcome without attempting any channel, even
though a configured channel (the local mailbox) would succeed. -/
theorem resolver_exhaustion_cex :
    envLocalOnly.localConfigured = true ∧
    localReply envLocalOnly.localFetch = some "local whale report" ∧
    POST (some { message := MsgField.str "status", preferLocal := some false }) envLocalOnly
      = (ApiResult.unavailable "No agent configured", []) :=
  ⟨rfl, rfl, rfl⟩

/-- C2 amended: under the (defaulted) prefer-local preference, a terminal
503 outcome is returned only after every configured channel was attempted
and failed; under `preferLocal = false` the local mailbox is never
attempted, and the terminal outcome reflects only the remote channel. -/
theorem resolver_exhaustion (b : ReqBody) (env : ResolverEnv) (e : String) (att : List Channel)
    (h : POST (some b) env = (ApiResult.unavailable e, att)) :
    (b.preferLocal.getD true = true →
      (env.localConfigured = true →
        Channel.localMailbox ∈ att ∧ localReply env.localFetch = none) ∧
      (env.remoteConfigured = true →
        Channel.asiOne ∈ att ∧ remoteReply env.remote = none)) ∧
    (b.preferLocal.getD true = false → Channel.localMailbox ∉ att ∧
      (env.remoteConfigured = true →
        Channel.asiOne ∈ att ∧ remoteReply env.remote = none)) := by
  rcases hv : validMessage b.message with _ | m <;>
    rcases hp : b.preferLocal.getD true with _ | _ <;>
    rcases hl : env.localConfigured with _ | _ <;>
    rcases hr : env.remoteConfigured with _ | _ <;>
    rcases hlf : localReply env.localFetch with _ | t <;>
    rcases hrr : remoteReply env.remote with _ | t2 <;>
    simp_all [POST] <;>
    (obtain ⟨he, ha⟩ := h; subst ha; simp)

theorem resolver_exhaustion_witness :
    Channel.asiOne ∈ [Channel.localMailbox, Channel.asiOne] ∧
    remoteReply envBothFailing.remote = none :=
  ((resolver_exhaustion { message := MsgField.str "status", preferLocal := none }
    envBothFailing "All agent communication methods failed"
    [Channel.localMailbox, Channel.asiOne] rfl).1 rfl).2 rfl

/-- C3: with the (defaulted) prefer-local preference and both channels
configured, the local mailbox is the first channel attempted, and on a
successful local attempt the handler returns that reply tagged
`local-mailbox` with the remote channel never attempted. -/
theorem resolver_local_first (b : ReqBody) (env : ResolverEnv) (m : String)
    (hm : validMessage b.message = some m)
    (hp : b.preferLocal.getD true = true)
    (hl : env.localConfigured = true)
    (hr : env.remoteConfigured = true) :
    (POST (some b) env).2.head? = some Channel.localMailbox ∧
    (∀ t, localReply env.localFetch = some t →
      POST (some b) env = (ApiResult.ok t "local-mailbox", [Channel.localMailbox])) := by
  constructor
  · simp only [POST, hm, hp, hl, hr, Bool.and_self, if_true]
    rcases hlf : localReply env.localFetch with _ | t
    · rcases hrr : remoteReply env.remote with _ | t <;> rfl
    · rfl
  · intro t hlf
    simp only [POST, hm, hp, hl, hlf, Bool.and_self, if_true]

theorem resolver_local_first_witness :
    POST (some { message := MsgField.str "status", preferLocal := none }) envBothHealthy
      = (ApiResult.ok "local whale report" "local-mailbox", [Channel.localMailbox]) :=
  (resolver_local_first { message := MsgField.str "status", preferLocal := none }
    envBothHealthy "status" rfl rfl rfl rfl).2 "local whale report" rfl

/-- C5: a request body whose `message` field is absent or not a string is
answered with the 400 outcome and no channel is attempted. -/
theorem resolver_validation (b : ReqBody) (env : ResolverEnv)
    (h : b.message = MsgField.absent ∨ b.message = MsgField.notString) :
    POST (some b) env = (ApiResult.badRequest "Message is required and must be a string", []) := by
  rcases h with h | h <;> simp only [POST, h, validMessage]

theorem resolver_validation_witness :
    POST (some { message := MsgField.absent, preferLocal := none }) envBothHealthy
      = (ApiResult.badRequest "Message is required and must be a string", []) :=
  resolver_validation { message := MsgField.absent, preferLocal := none } envBothHealthy
    (Or.inl rfl)

end WhaleAgent

namespace WhaleAgent

/-- C4 counterexample: a remote attempt that answers 2xx with a parsed
JSON body from which no assistant text can be extracted is reported by
`sendMessage` as a success carrying the placeholder text, and the
resolver returns that placeholder as a successful reply instead of
treating the attempt as a failed channel. -/
theorem remote_malformed_cex :
    sendMessage envMalformedRemote.remote
      = { success := true, message := some "No response received", error := none } ∧
    POST (some { message := MsgField.str "status", preferLocal := none }) envMalformedRemote
      = (ApiResult.ok "No response received" "asi-one", [Channel.localMailbox, Channel.asiOne]) :=
  ⟨rfl, rfl⟩

/-- C4 amended: a remote attempt that throws, or answers with a non-2xx
status (or a body whose JSON parsing throws), is treated as a failure of
the channel; but a 2xx response whose parsed body yields no extractable
assistant text is not: `sendMessage` reports success with the placeholder
text `No response received`, which passes the resolver's success check. -/
theorem remote_malformed (renv : RemoteEnv) :
    (∀ e, renv.fetch = RemoteFetch.netThrow e → remoteReply renv = none) ∧
    (∀ s, renv.fetch = RemoteFetch.httpErr s → remoteReply renv = none) ∧
    (∀ a, renv.agentAddress = some a → renv.fetch = RemoteFetch.ok none none →
      sendMessage renv = { success := true, message := some "No response received", error := none } ∧
      remoteReply renv = some "No response received") := by
  obtain ⟨addr, f⟩ := renv
  refine ⟨?_, ?_, ?_⟩
  · intro e he
    simp only at he
    subst he
    cases addr <;> rfl
  · intro s hs
    simp only at hs
    subst hs
    cases addr <;> rfl
  · intro a ha hf
    simp only at ha hf
    subst ha
    subst hf
    exact ⟨rfl, rfl⟩

theorem remote_malformed_witness :
    remoteReply { agentAddress := some "agent1qfe8", fetch := RemoteFetch.httpErr 500 } = none :=
  (remote_malformed { agentAddress := some "agent1qfe8", fetch := RemoteFetch.httpErr 500 }).2.1
    500 rfl

/-- C9 counterexample: two invocations of the mailbox handler with the
same message but at different wall-clock times produce different response
texts, because the `status` intent's canned block embeds
`new Date().toLocaleString()`. -/
theorem mailbox_determinism_cex :
    mailboxRespond "status" "1/1/2024, 1:00:00 AM"
      ≠ mailboxRespond "status" "1/1/2024, 1:00:01 AM" := by
  decide

/-- C9 amended: the mailbox handler's response text is a pure function of
the incoming message and the invocation's rendered wall-clock time; for
every message that does not select the `status` intent, the response is
determined by the message alone, so two invocations at different times
agree. -/
theorem mailbox_determinism (m t1 t2 : String)
    (h : includesStr (lowerStr m) "status" = false) :
    mailboxRespond m t1 = mailboxRespond m t2 := by
  simp [mailboxRespond, h]

theorem mailbox_determinism_witness :
    mailboxRespond "help" "1/1/2024, 1:00:00 AM"
      = mailboxRespond "help" "1/1/2024, 1:00:01 AM" :=
  mailbox_determinism "help" "1/1/2024, 1:00:00 AM" "1/1/2024, 1:00:01 AM" (by decide)

end WhaleAgent
